import Mathlib

/-!
# mutex_scheduled_func.c : a timeout function scheduling another function

Shallow embedding of `src/mutex_scheduled_func.c`.

* C integers are `Int`. `time_t` is a signed 64-bit type: every arithmetic result
  stored in a `tv_sec` field is reduced to 64 bits (`wrap64`). The nanosecond
  arithmetic is written exactly and has a second definition that wraps every
  operation to 32 bits, the narrowest `long`.
* Everything the operating system decides (the clock reading, whether `malloc`
  returns NULL, the return codes of the pthread calls, how the sleep ends) is an
  explicit input of the model.
* Side effects are recorded as a list of events in program order, one list for
  the calling thread and one for the detached thread if one is started.
* A pointer to a heap record is the record itself; `free` names the record.
-/

namespace MutexScheduledFunc

/-! ## Data model -/

/-- The C `struct timespec`: whole seconds and nanoseconds. -/
structure timespec where
  tv_sec : Int
  tv_nsec : Int
deriving DecidableEq, Repr

/-- Line 44: `#define SECTONSEC 1000000000`. -/
def SECTONSEC : Int := 1000000000

/-- Reduction of an integer to a signed 64-bit value (wrap-around), the result of
`time_t` arithmetic. -/
def wrap64 (x : Int) : Int := (x + 2 ^ 63) % 2 ^ 64 - 2 ^ 63

/-- A function address of type `void (*)(void *)`. The program defines one such
function, `retry`; every other callback is an address whose body is unknown. -/
inductive FnPtr where
  | retry
  | other (addr : Nat)
deriving DecidableEq, Repr

/-- A `void *` value, seen as an integer. -/
abbrev VoidPtr := Int

/-- Lines 38-42: `struct to_info`. -/
structure to_info where
  to_fn : FnPtr
  to_arg : VoidPtr
  to_wait : timespec
deriving DecidableEq, Repr

/-- How one call of `clock_nanosleep` ends. It either returns 0 once the requested
time plus some scheduling slack has gone by, or it is cut short by a signal and
returns `EINTR` after `after` nanoseconds. -/
inductive SleepResult where
  | completed (slack : Nat)
  | interrupted (after : Nat)
deriving DecidableEq, Repr

/-- Observable actions of a thread. -/
inductive Event where
  | clock_gettime (tsp : timespec)
  | malloc (ok : Bool)
  | makethread (tip : to_info) (err : Int)
  | free (tip : to_info)
  | call (fn : FnPtr) (arg : VoidPtr)
  | clock_nanosleep (req : timespec) (res : SleepResult)
  | mutex_lock
  | mutex_unlock
  | write (fd : Int) (msg : String)
  | exit (status : Int)
deriving DecidableEq, Repr

/-- Return codes of the three pthread calls made by `makethread`. -/
structure ThreadEnv where
  attr_init : Int
  setdetachstate : Int
  create : Int
deriving DecidableEq, Repr

/-- Everything the system decides during one call of `timeout`. -/
structure Env where
  now : timespec
  malloc_ok : Bool
  thr : ThreadEnv
  sleep : SleepResult
deriving DecidableEq, Repr

/-- What one call of `timeout` causes: the events of the calling thread up to the
return, and the events of the detached thread when one was started. -/
structure Outcome where
  caller : List Event
  thread : Option (List Event)
deriving DecidableEq, Repr

/-! ## The timeout engine -/

/-- The library call `pthread_create`: with return code 0 a thread running
`fn arg` exists, with any other return code no thread was made. -/
def pthread_create {α : Type} (res : Int) (fn : α → List Event) (arg : α) :
    Int × Option (List Event) :=
  (res, if res = 0 then some (fn arg) else none)

/-- Lines 21-36: `makethread`. Returns the error code and the started thread. -/
def makethread {α : Type} (e : ThreadEnv) (fn : α → List Event) (arg : α) :
    Int × Option (List Event) :=
  let err := e.attr_init
  if err ≠ 0 then (err, none)
  else
    let err := e.setdetachstate
    if err = 0 then pthread_create e.create fn arg
    else (err, none)

/-- Lines 65-75: `timeout_helper`. One sleep request for `to_wait` (the result of
the sleep is ignored and no remainder is asked for), then the callback, then
`free`. -/
def timeout_helper (sleep : SleepResult) (tip : to_info) : List Event :=
  [Event.clock_nanosleep tip.to_wait sleep, Event.call tip.to_fn tip.to_arg, Event.free tip]

/-- Lines 85-86: the test that selects the deferred branch. -/
def deferred (when now : timespec) : Bool :=
  decide (when.tv_sec > now.tv_sec) ||
    (decide (when.tv_sec = now.tv_sec) && decide (when.tv_nsec > now.tv_nsec))

/-- Lines 91-97: the value stored in `tip->to_wait`. The subtraction of line 91 and
the decrement of line 95 are `time_t` operations and wrap to 64 bits. -/
def timeout_wait (when now : timespec) : timespec :=
  let sec := wrap64 (when.tv_sec - now.tv_sec)
  if when.tv_nsec ≥ now.tv_nsec then
    { tv_sec := sec, tv_nsec := when.tv_nsec - now.tv_nsec }
  else
    { tv_sec := wrap64 (sec - 1), tv_nsec := SECTONSEC - now.tv_nsec + when.tv_nsec }

/-- Lines 77-106: `timeout`. -/
def timeout (e : Env) (when : timespec) (func : FnPtr) (arg : VoidPtr) : Outcome :=
  let now := e.now
  if deferred when now then
    if e.malloc_ok then
      let tip : to_info := { to_fn := func, to_arg := arg, to_wait := timeout_wait when now }
      let r := makethread e.thr (timeout_helper e.sleep) tip
      if r.1 = 0 then
        { caller := [Event.clock_gettime now, Event.malloc true, Event.makethread tip r.1],
          thread := r.2 }
      else
        { caller := [Event.clock_gettime now, Event.malloc true, Event.makethread tip r.1,
                     Event.free tip, Event.call func arg],
          thread := r.2 }
    else
      { caller := [Event.clock_gettime now, Event.malloc false, Event.call func arg],
        thread := none }
  else
    { caller := [Event.clock_gettime now, Event.call func arg], thread := none }

/-! ## Observations on traces -/

/-- The combined seconds+nanoseconds value of a time, in nanoseconds. -/
def ns (t : timespec) : Int := t.tv_sec * SECTONSEC + t.tv_nsec

/-- The nanosecond field lies in `[0, 1e9)`. -/
def wellFormed (t : timespec) : Prop := 0 ≤ t.tv_nsec ∧ t.tv_nsec < SECTONSEC

instance (t : timespec) : Decidable (wellFormed t) :=
  inferInstanceAs (Decidable (0 ≤ t.tv_nsec ∧ t.tv_nsec < SECTONSEC))

/-- The callback invocations of a trace, in order. -/
def calls : List Event → List (FnPtr × VoidPtr)
  | [] => []
  | Event.call fn arg :: es => (fn, arg) :: calls es
  | _ :: es => calls es

/-- The records released by a trace, in order. -/
def frees : List Event → List to_info
  | [] => []
  | Event.free tip :: es => tip :: frees es
  | _ :: es => frees es

/-- The allocation attempts of a trace with their success flag, in order. -/
def mallocs : List Event → List Bool
  | [] => []
  | Event.malloc ok :: es => ok :: mallocs es
  | _ :: es => mallocs es

/-- The thread launches attempted by a trace: record handed over and return code. -/
def launches : List Event → List (to_info × Int)
  | [] => []
  | Event.makethread tip err :: es => (tip, err) :: launches es
  | _ :: es => launches es

/-- The sleep requests of a trace, in order. -/
def sleeps : List Event → List timespec
  | [] => []
  | Event.clock_nanosleep req _ :: es => req :: sleeps es
  | _ :: es => sleeps es

/-- Nanoseconds that went by in one sleep call. -/
def SleepResult.slept (req : timespec) : SleepResult → Int
  | SleepResult.completed slack => ns req + slack
  | SleepResult.interrupted after => after

/-- Nanoseconds spent sleeping before the first callback invocation of a trace. -/
def sleptBeforeCall : List Event → Int
  | [] => 0
  | Event.clock_nanosleep req r :: es => r.slept req + sleptBeforeCall es
  | Event.call _ _ :: _ => 0
  | _ :: es => sleptBeforeCall es

/-- All callback invocations caused by one call of `timeout`: those made on the
calling thread followed by those of the detached thread. -/
def Outcome.allCalls (o : Outcome) : List (FnPtr × VoidPtr) :=
  calls o.caller ++ calls (o.thread.getD [])

/-! ## Nanosecond arithmetic at 32 bits -/

/-- Reduction of an integer to a signed 32-bit value (wrap-around). -/
def wrap32 (x : Int) : Int := (x + 2 ^ 31) % 2 ^ 32 - 2 ^ 31

/-- Lines 92-96, nanosecond part only: every value the computation produces, in
evaluation order (`SECTONSEC - now.tv_nsec + when->tv_nsec` groups to the left). -/
def nsec_steps (when now : timespec) : List Int :=
  if when.tv_nsec ≥ now.tv_nsec then
    [when.tv_nsec - now.tv_nsec]
  else
    [SECTONSEC - now.tv_nsec, SECTONSEC - now.tv_nsec + when.tv_nsec]

/-- Lines 92-96, nanosecond part only, with every operation wrapped to 32 bits. -/
def timeout_wait_nsec32 (when now : timespec) : Int :=
  if when.tv_nsec ≥ now.tv_nsec then
    wrap32 (when.tv_nsec - now.tv_nsec)
  else
    wrap32 (wrap32 (SECTONSEC - now.tv_nsec) + when.tv_nsec)

/-! ## The guarded scheduling pattern -/

/-- A thread identifier. -/
abbrev Tid := Nat

/-- State of a mutex of type `PTHREAD_MUTEX_RECURSIVE`: the owning thread and how
many times it holds the lock. -/
structure Mutex where
  owner : Option Tid
  count : Nat
deriving DecidableEq, Repr

/-- The mutex right after `pthread_mutex_init`. -/
def Mutex.init : Mutex := { owner := none, count := 0 }

/-- How many times thread `self` holds the mutex. -/
def Mutex.heldBy (m : Mutex) (self : Tid) : Nat :=
  if m.owner = some self then m.count else 0

/-- Modelled from the spec: the library call `pthread_mutex_lock` on a recursive
mutex (the reentrant lock of the data model). A free mutex is taken, the owner
may take it again, and any other thread has to wait (`none`: the call does not
return in this state). -/
def pthread_mutex_lock (self : Tid) (m : Mutex) : Option Mutex :=
  match m.owner with
  | none => some { owner := some self, count := 1 }
  | some o => if o = self then some { owner := some o, count := m.count + 1 } else none

/-- Modelled from the spec: the library call `pthread_mutex_unlock` on a recursive
mutex. The owner gives up one hold and the mutex is free again once the count
reaches zero; a thread that is not the owner gets an error (`none`). -/
def pthread_mutex_unlock (self : Tid) (m : Mutex) : Option Mutex :=
  match m.owner with
  | none => none
  | some o =>
    if o = self then
      if m.count ≤ 1 then some { owner := none, count := 0 }
      else some { owner := some o, count := m.count - 1 }
    else none

/-- Lines 111-117: `retry`. -/
def retry (_arg : VoidPtr) : List Event :=
  [Event.mutex_lock, Event.mutex_unlock]

/-- The body behind a function address: `retry` is the one defined in the program,
any other callback has no modelled effect. -/
def body : FnPtr → VoidPtr → List Event
  | FnPtr.retry, arg => retry arg
  | FnPtr.other _, _ => []

/-- Runs the body of every callback invoked in a trace right after its `call`
event, on the same thread. -/
def runCalls : List Event → List Event
  | [] => []
  | Event.call fn arg :: es => Event.call fn arg :: (body fn arg ++ runCalls es)
  | Event.clock_gettime t :: es => Event.clock_gettime t :: runCalls es
  | Event.malloc ok :: es => Event.malloc ok :: runCalls es
  | Event.makethread tip err :: es => Event.makethread tip err :: runCalls es
  | Event.free tip :: es => Event.free tip :: runCalls es
  | Event.clock_nanosleep req r :: es => Event.clock_nanosleep req r :: runCalls es
  | Event.mutex_lock :: es => Event.mutex_lock :: runCalls es
  | Event.mutex_unlock :: es => Event.mutex_unlock :: runCalls es
  | Event.write fd msg :: es => Event.write fd msg :: runCalls es
  | Event.exit st :: es => Event.exit st :: runCalls es

/-- Lines 14-19: `die`. -/
def die (err : Int) (msg : String) : List Event :=
  [Event.write 2 msg, Event.exit err]

/-- Everything `main` does not decide itself: the return codes of the three setup
calls, the two locals it reads without setting them, the clock reading of
line 139 and the environment of the `timeout` call. -/
structure MainEnv where
  mutexattr_init : Int
  mutexattr_settype : Int
  mutex_init : Int
  condition : Int
  arg : Int
  clock : timespec
  tenv : Env
deriving DecidableEq, Repr

/-- Line 141: the conversion `(void *)((unsigned long)arg)` with a 64-bit
`unsigned long`. -/
def argPtr (arg : Int) : VoidPtr := arg % 2 ^ 64

/-- Lines 138-141: the deadline `main` passes to `timeout`; line 140 is a `time_t`
addition and wraps to 64 bits. -/
def mainWhen (e : MainEnv) : timespec :=
  { tv_sec := wrap64 (e.clock.tv_sec + 10), tv_nsec := e.clock.tv_nsec }

/-- Lines 137-142: the guarded block of `main`, as run by the main thread. -/
def mainGuarded (e : MainEnv) : List Event :=
  if e.condition ≠ 0 then
    Event.clock_gettime e.clock ::
      runCalls (timeout e.tenv (mainWhen e) FnPtr.retry (argPtr e.arg)).caller
  else []

/-- Lines 119-146: `main`, the events of the main thread. -/
def main (e : MainEnv) : List Event :=
  if e.mutexattr_init ≠ 0 then
    die e.mutexattr_init "pthread_mutexattr_init failed\n"
  else if e.mutexattr_settype ≠ 0 then
    die e.mutexattr_settype "pthread_mutex_attr_settype failed\n"
  else if e.mutex_init ≠ 0 then
    die e.mutex_init "pthread_mutex_init failed\n"
  else
    Event.mutex_lock :: (mainGuarded e ++ [Event.mutex_unlock, Event.exit 0])

/-- Effect of one event of thread `self` on the mutex. -/
def stepMutex (self : Tid) (m : Mutex) : Event → Option Mutex
  | Event.mutex_lock => pthread_mutex_lock self m
  | Event.mutex_unlock => pthread_mutex_unlock self m
  | _ => some m

/-- Runs a trace of thread `self` from mutex state `m`. The result pairs every
event with the number of holds `self` has once the event is done, and gives the
final mutex state; `none` when a lock call would wait or an unlock call fails. -/
def holdCounts (self : Tid) : Mutex → List Event → Option (List (Event × Nat) × Mutex)
  | m, [] => some ([], m)
  | m, e :: es =>
    match stepMutex self m e with
    | none => none
    | some m1 =>
      match holdCounts self m1 es with
      | none => none
      | some (l, mf) => some ((e, m1.heldBy self) :: l, mf)

/-- The identifier of the main thread. -/
def mainTid : Tid := 0

/-- Number of lock calls in a trace. -/
def lockCount : List Event → Nat
  | [] => 0
  | Event.mutex_lock :: es => lockCount es + 1
  | _ :: es => lockCount es

/-- Number of unlock calls in a trace. -/
def unlockCount : List Event → Nat
  | [] => 0
  | Event.mutex_unlock :: es => unlockCount es + 1
  | _ :: es => unlockCount es

/-- A run of `main` in which the condition holds and the clock has moved on by ten
seconds between line 139 and the reading inside `timeout`, so that the deadline is
already due and `retry` runs on the main thread. -/
def dueMainEnv : MainEnv :=
  { mutexattr_init := 0, mutexattr_settype := 0, mutex_init := 0, condition := 1, arg := 5,
    clock := { tv_sec := 100, tv_nsec := 0 },
    tenv := { now := { tv_sec := 110, tv_nsec := 0 }, malloc_ok := true,
              thr := { attr_init := 0, setdetachstate := 0, create := 0 },
              sleep := SleepResult.completed 0 } }

/-! ## Theorems -/

theorem deferred_iff_ns_lt (when now : timespec) (hw : wellFormed when)
    (hn : wellFormed now) : deferred when now = true ↔ ns now < ns when := by
  unfold wellFormed SECTONSEC at hw hn
  simp only [deferred, ns, SECTONSEC, Bool.or_eq_true, Bool.and_eq_true, decide_eq_true_eq]
  constructor
  · rintro (h | ⟨h1, h2⟩) <;> omega
  · intro h
    by_cases h1 : when.tv_sec > now.tv_sec
    · exact Or.inl h1
    · exact Or.inr ⟨by omega, by omega⟩

theorem makethread_zero_iff {α : Type} (e : ThreadEnv) (fn : α → List Event) (arg : α) :
    ((makethread e fn arg).1 = 0 → (makethread e fn arg).2 = some (fn arg)) ∧
    ((makethread e fn arg).1 ≠ 0 → (makethread e fn arg).2 = none) := by
  unfold makethread pthread_create
  by_cases h1 : e.attr_init = 0 <;> by_cases h2 : e.setdetachstate = 0 <;>
    by_cases h3 : e.create = 0 <;> simp [h1, h2, h3]

theorem wrap64_of_fits (x : Int) (h1 : -(2 ^ 63) ≤ x) (h2 : x < 2 ^ 63) : wrap64 x = x := by
  unfold wrap64
  rw [Int.emod_eq_of_lt (by omega) (by omega)]
  omega

theorem timeout_wait_exact (when now : timespec) (hd : deferred when now = true)
    (hfit : when.tv_sec - now.tv_sec < 2 ^ 63) :
    timeout_wait when now =
      if when.tv_nsec ≥ now.tv_nsec then
        { tv_sec := when.tv_sec - now.tv_sec, tv_nsec := when.tv_nsec - now.tv_nsec }
      else
        { tv_sec := when.tv_sec - now.tv_sec - 1,
          tv_nsec := SECTONSEC - now.tv_nsec + when.tv_nsec } := by
  simp only [deferred, Bool.or_eq_true, Bool.and_eq_true, decide_eq_true_eq] at hd
  have hs : wrap64 (when.tv_sec - now.tv_sec) = when.tv_sec - now.tv_sec :=
    wrap64_of_fits _ (by omega) hfit
  unfold timeout_wait
  simp only [hs]
  split
  · rfl
  · rw [wrap64_of_fits (when.tv_sec - now.tv_sec - 1) (by omega) (by omega)]

theorem timeout_wait_ns (when now : timespec) (hd : deferred when now = true)
    (hfit : when.tv_sec - now.tv_sec < 2 ^ 63) :
    ns (timeout_wait when now) = ns when - ns now := by
  rw [timeout_wait_exact when now hd hfit]
  unfold ns SECTONSEC
  split <;> simp only <;> omega

theorem timeout_wait_wellFormed (when now : timespec) (hw : wellFormed when)
    (hn : wellFormed now) (hd : deferred when now = true)
    (hfit : when.tv_sec - now.tv_sec < 2 ^ 63) :
    0 ≤ (timeout_wait when now).tv_sec ∧ wellFormed (timeout_wait when now) := by
  rw [timeout_wait_exact when now hd hfit]
  unfold wellFormed SECTONSEC at hw hn
  simp only [deferred, Bool.or_eq_true, Bool.and_eq_true, decide_eq_true_eq] at hd
  unfold wellFormed SECTONSEC
  split <;> simp only <;> omega

theorem timeout_not_deferred (e : Env) (when : timespec) (func : FnPtr) (arg : VoidPtr)
    (hd : deferred when e.now = false) :
    timeout e when func arg =
      { caller := [Event.clock_gettime e.now, Event.call func arg], thread := none } := by
  simp [timeout, hd]

theorem timeout_malloc_failed (e : Env) (when : timespec) (func : FnPtr) (arg : VoidPtr)
    (hd : deferred when e.now = true) (hm : e.malloc_ok = false) :
    timeout e when func arg =
      { caller := [Event.clock_gettime e.now, Event.malloc false, Event.call func arg],
        thread := none } := by
  simp [timeout, hd, hm]

theorem timeout_launched (e : Env) (when : timespec) (func : FnPtr) (arg : VoidPtr)
    (hd : deferred when e.now = true) (hm : e.malloc_ok = true)
    (hz : (makethread e.thr (timeout_helper e.sleep)
            { to_fn := func, to_arg := arg, to_wait := timeout_wait when e.now }).1 = 0) :
    timeout e when func arg =
      { caller := [Event.clock_gettime e.now, Event.malloc true,
                   Event.makethread
                     { to_fn := func, to_arg := arg, to_wait := timeout_wait when e.now } 0],
        thread := some (timeout_helper e.sleep
                     { to_fn := func, to_arg := arg, to_wait := timeout_wait when e.now }) } := by
  have h2 := (makethread_zero_iff e.thr (timeout_helper e.sleep)
    { to_fn := func, to_arg := arg, to_wait := timeout_wait when e.now }).1 hz
  simp [timeout, hd, hm, hz, h2]

theorem timeout_launch_failed (e : Env) (when : timespec) (func : FnPtr) (arg : VoidPtr)
    (hd : deferred when e.now = true) (hm : e.malloc_ok = true)
    (hz : (makethread e.thr (timeout_helper e.sleep)
            { to_fn := func, to_arg := arg, to_wait := timeout_wait when e.now }).1 ≠ 0) :
    timeout e when func arg =
      { caller := [Event.clock_gettime e.now, Event.malloc true,
                   Event.makethread
                     { to_fn := func, to_arg := arg, to_wait := timeout_wait when e.now }
                     (makethread e.thr (timeout_helper e.sleep)
                       { to_fn := func, to_arg := arg, to_wait := timeout_wait when e.now }).1,
                   Event.free
                     { to_fn := func, to_arg := arg, to_wait := timeout_wait when e.now },
                   Event.call func arg],
        thread := none } := by
  have h2 := (makethread_zero_iff e.thr (timeout_helper e.sleep)
    { to_fn := func, to_arg := arg, to_wait := timeout_wait when e.now }).2 hz
  simp [timeout, hd, hm, hz, h2]

theorem timeout_mallocs (e : Env) (when : timespec) (func : FnPtr) (arg : VoidPtr) :
    mallocs (timeout e when func arg).caller =
      if deferred when e.now then [e.malloc_ok] else [] := by
  cases hd : deferred when e.now
  · simp [timeout_not_deferred e when func arg hd, mallocs]
  · cases hm : e.malloc_ok
    · simp [timeout_malloc_failed e when func arg hd hm, mallocs]
    · by_cases hz : (makethread e.thr (timeout_helper e.sleep)
            { to_fn := func, to_arg := arg, to_wait := timeout_wait when e.now }).1 = 0
      · simp [timeout_launched e when func arg hd hm hz, mallocs]
      · simp [timeout_launch_failed e when func arg hd hm hz, mallocs]

theorem timeout_launches (e : Env) (when : timespec) (func : FnPtr) (arg : VoidPtr) :
    launches (timeout e when func arg).caller =
      if deferred when e.now && e.malloc_ok then
        [({ to_fn := func, to_arg := arg, to_wait := timeout_wait when e.now },
          (makethread e.thr (timeout_helper e.sleep)
            { to_fn := func, to_arg := arg, to_wait := timeout_wait when e.now }).1)]
      else [] := by
  cases hd : deferred when e.now
  · simp [timeout_not_deferred e when func arg hd, launches]
  · cases hm : e.malloc_ok
    · simp [timeout_malloc_failed e when func arg hd hm, launches]
    · by_cases hz : (makethread e.thr (timeout_helper e.sleep)
            { to_fn := func, to_arg := arg, to_wait := timeout_wait when e.now }).1 = 0
      · simp [timeout_launched e when func arg hd hm hz, launches, hz]
      · simp [timeout_launch_failed e when func arg hd hm hz, launches]

/-- C1: for a deadline and a clock reading with nanoseconds in [0, 1e9), the test of
lines 85-86 selects the deferred branch exactly when the combined value of `when` is
strictly greater than that of `now`; `timeout` attempts the allocation exactly in
that case, and when the allocation succeeds a `to_info` record (holding the
caller's function, argument and the computed wait) exists exactly in that case. -/
theorem timeout_deferred_iff_strictly_later (e : Env) (when : timespec) (func : FnPtr)
    (arg : VoidPtr) (hw : wellFormed when) (hn : wellFormed e.now) :
    (deferred when e.now = true ↔ ns e.now < ns when) ∧
    (mallocs (timeout e when func arg).caller ≠ [] ↔ ns e.now < ns when) ∧
    (e.malloc_ok = true →
      ((mallocs (timeout e when func arg).caller = [true] ∧
        (launches (timeout e when func arg).caller).map Prod.fst =
          [{ to_fn := func, to_arg := arg, to_wait := timeout_wait when e.now }])
        ↔ ns e.now < ns when)) := by
  have key := deferred_iff_ns_lt when e.now hw hn
  refine ⟨key, ?_, ?_⟩
  · rw [timeout_mallocs, ← key]
    cases deferred when e.now <;> simp
  · intro hm
    rw [timeout_mallocs, timeout_launches, ← key, hm]
    cases deferred when e.now <;> simp

/-- Witness for C1: the borrow case `now = (10, 900000000)`, `when = (11, 100000000)`. -/
theorem timeout_deferred_iff_strictly_later_witness :
    wellFormed { tv_sec := 11, tv_nsec := 100000000 } ∧
    wellFormed { tv_sec := 10, tv_nsec := 900000000 } ∧
    (deferred { tv_sec := 11, tv_nsec := 100000000 } { tv_sec := 10, tv_nsec := 900000000 } = true
      ↔ ns { tv_sec := 10, tv_nsec := 900000000 } < ns { tv_sec := 11, tv_nsec := 100000000 }) :=
  ⟨by decide, by decide,
   (timeout_deferred_iff_strictly_later
    { now := { tv_sec := 10, tv_nsec := 900000000 }, malloc_ok := true,
      thr := { attr_init := 0, setdetachstate := 0, create := 0 },
      sleep := SleepResult.completed 0 }
    { tv_sec := 11, tv_nsec := 100000000 } FnPtr.retry 0 (by decide) (by decide)).1⟩

/-- C2: a deadline whose combined value is not greater than the clock reading (the
equal case included) makes `timeout` read the clock, call `func(arg)` once on the
calling thread as its last action, and do nothing else: no allocation, no thread
launch, no release, no detached thread. -/
theorem timeout_due_calls_inline (e : Env) (when : timespec) (func : FnPtr) (arg : VoidPtr)
    (hw : wellFormed when) (hn : wellFormed e.now) (hle : ns when ≤ ns e.now) :
    (timeout e when func arg).caller = [Event.clock_gettime e.now, Event.call func arg] ∧
    calls (timeout e when func arg).caller = [(func, arg)] ∧
    mallocs (timeout e when func arg).caller = [] ∧
    launches (timeout e when func arg).caller = [] ∧
    (timeout e when func arg).thread = none := by
  have hd : deferred when e.now = false := by
    cases h : deferred when e.now
    · rfl
    · have := (deferred_iff_ns_lt when e.now hw hn).1 h
      omega
  rw [timeout_not_deferred e when func arg hd]
  simp [calls, mallocs, launches]

/-- Witness for C2: the equal case `now = (10, 0)`, `when = (10, 0)`. -/
theorem timeout_due_calls_inline_witness :
    wellFormed { tv_sec := 10, tv_nsec := 0 } ∧
    ns { tv_sec := 10, tv_nsec := 0 } ≤ ns { tv_sec := 10, tv_nsec := 0 } ∧
    (timeout
      { now := { tv_sec := 10, tv_nsec := 0 }, malloc_ok := true,
        thr := { attr_init := 0, setdetachstate := 0, create := 0 },
        sleep := SleepResult.completed 0 }
      { tv_sec := 10, tv_nsec := 0 } FnPtr.retry 7).caller =
        [Event.clock_gettime { tv_sec := 10, tv_nsec := 0 }, Event.call FnPtr.retry 7] :=
  ⟨by decide, by decide,
   (timeout_due_calls_inline
    { now := { tv_sec := 10, tv_nsec := 0 }, malloc_ok := true,
      thr := { attr_init := 0, setdetachstate := 0, create := 0 },
      sleep := SleepResult.completed 0 }
    { tv_sec := 10, tv_nsec := 0 } FnPtr.retry 7 (by decide) (by decide) (by decide)).1⟩

/-- C3, as stated, fails: `when = (2^63 - 1, 0)` is strictly later than
`now = (-1, 0)` and both have nanoseconds in [0, 1e9), but the seconds difference
2^63 does not fit `time_t`: line 91 stores `tv_sec = -2^63`, and the combined value of
the stored wait is not that of `when` minus that of `now`. -/
theorem timeout_wait_seconds_overflow :
    wellFormed { tv_sec := 9223372036854775807, tv_nsec := 0 } ∧
    wellFormed { tv_sec := -1, tv_nsec := 0 } ∧
    ns { tv_sec := -1, tv_nsec := 0 } < ns { tv_sec := 9223372036854775807, tv_nsec := 0 } ∧
    (launches (timeout
        { now := { tv_sec := -1, tv_nsec := 0 }, malloc_ok := true,
          thr := { attr_init := 0, setdetachstate := 0, create := 0 },
          sleep := SleepResult.completed 0 }
        { tv_sec := 9223372036854775807, tv_nsec := 0 } (FnPtr.other 1) 7).caller).map
          (fun p => p.1.to_wait) =
      [{ tv_sec := -9223372036854775808, tv_nsec := 0 }] ∧
    ¬ ((timeout_wait { tv_sec := 9223372036854775807, tv_nsec := 0 }
          { tv_sec := -1, tv_nsec := 0 }).tv_sec * 1000000000 +
        (timeout_wait { tv_sec := 9223372036854775807, tv_nsec := 0 }
          { tv_sec := -1, tv_nsec := 0 }).tv_nsec =
        (9223372036854775807 * 1000000000 + 0) - (-1 * 1000000000 + 0)) := by
  decide

/-- C3, amended: for `when` strictly later than `now`, both with nanoseconds in
[0, 1e9) and with a seconds difference `when.tv_sec - now.tv_sec` that fits the signed
64-bit `time_t` (below 2^63), the record `timeout` hands to the new thread (allocation
succeeding) holds a wait whose combined value is exactly that of `when` minus that of
`now`. With `now = (10, 500000000)` and `when = (10, 900000000)` the stored wait is
`(0, 400000000)`; with `now = (10, 900000000)` and `when = (11, 100000000)` (borrow)
it is `(0, 200000000)`. -/
theorem timeout_wait_is_deadline_minus_now :
    (∀ (e : Env) (when : timespec) (func : FnPtr) (arg : VoidPtr),
      wellFormed when → wellFormed e.now → ns e.now < ns when →
      when.tv_sec - e.now.tv_sec < 2 ^ 63 → e.malloc_ok = true →
      (launches (timeout e when func arg).caller).map (fun p => p.1.to_wait) =
          [timeout_wait when e.now] ∧
        (timeout_wait when e.now).tv_sec * 1000000000 + (timeout_wait when e.now).tv_nsec =
          (when.tv_sec * 1000000000 + when.tv_nsec) -
            (e.now.tv_sec * 1000000000 + e.now.tv_nsec)) ∧
    (∀ (thr : ThreadEnv) (sl : SleepResult) (func : FnPtr) (arg : VoidPtr),
      (launches (timeout
          { now := { tv_sec := 10, tv_nsec := 500000000 }, malloc_ok := true, thr := thr,
            sleep := sl }
          { tv_sec := 10, tv_nsec := 900000000 } func arg).caller).map (fun p => p.1.to_wait) =
        [{ tv_sec := 0, tv_nsec := 400000000 }]) ∧
    (∀ (thr : ThreadEnv) (sl : SleepResult) (func : FnPtr) (arg : VoidPtr),
      (launches (timeout
          { now := { tv_sec := 10, tv_nsec := 900000000 }, malloc_ok := true, thr := thr,
            sleep := sl }
          { tv_sec := 11, tv_nsec := 100000000 } func arg).caller).map (fun p => p.1.to_wait) =
        [{ tv_sec := 0, tv_nsec := 200000000 }]) := by
  refine ⟨?_, ?_, ?_⟩
  · intro e when func arg hw hn hlt hfit hm
    have hd := (deferred_iff_ns_lt when e.now hw hn).2 hlt
    refine ⟨?_, ?_⟩
    · rw [timeout_launches, hd, hm]
      simp
    · have h := timeout_wait_ns when e.now hd hfit
      unfold ns SECTONSEC at h
      exact h
  · intro thr sl func arg
    rw [timeout_launches]
    have h : timeout_wait { tv_sec := 10, tv_nsec := 900000000 }
        { tv_sec := 10, tv_nsec := 500000000 } = { tv_sec := 0, tv_nsec := 400000000 } := by
      decide
    simp [deferred, h]
  · intro thr sl func arg
    rw [timeout_launches]
    have h : timeout_wait { tv_sec := 11, tv_nsec := 100000000 }
        { tv_sec := 10, tv_nsec := 900000000 } = { tv_sec := 0, tv_nsec := 200000000 } := by
      decide
    simp [deferred, h]

/-- Witness for C3: the general statement applied at `now = (10, 900000000)`,
`when = (11, 100000000)`. -/
theorem timeout_wait_is_deadline_minus_now_witness :
    wellFormed { tv_sec := 11, tv_nsec := 100000000 } ∧
    wellFormed { tv_sec := 10, tv_nsec := 900000000 } ∧
    ns { tv_sec := 10, tv_nsec := 900000000 } < ns { tv_sec := 11, tv_nsec := 100000000 } ∧
    (11 : Int) - 10 < 2 ^ 63 ∧
    (timeout_wait { tv_sec := 11, tv_nsec := 100000000 }
        { tv_sec := 10, tv_nsec := 900000000 }).tv_sec * 1000000000 +
      (timeout_wait { tv_sec := 11, tv_nsec := 100000000 }
        { tv_sec := 10, tv_nsec := 900000000 }).tv_nsec =
      (11 * 1000000000 + 100000000) - (10 * 1000000000 + 900000000) :=
  ⟨by decide, by decide, by decide, by decide,
   (timeout_wait_is_deadline_minus_now.1
    { now := { tv_sec := 10, tv_nsec := 900000000 }, malloc_ok := true,
      thr := { attr_init := 0, setdetachstate := 0, create := 0 },
      sleep := SleepResult.completed 0 }
    { tv_sec := 11, tv_nsec := 100000000 } FnPtr.retry 0
    (by decide) (by decide) (by decide) (by decide) rfl).2⟩

/-- C4, as stated, fails: for `when = (2^63 - 1, 0)` and `now = (-1, 0)`, both with
nanoseconds in [0, 1e9), the deferred branch is taken, the seconds difference 2^63
wraps in `time_t`, and the started thread is handed a sleep request with
`tv_sec = -2^63`. -/
theorem timeout_wait_negative_seconds :
    wellFormed { tv_sec := 9223372036854775807, tv_nsec := 0 } ∧
    wellFormed { tv_sec := -1, tv_nsec := 0 } ∧
    deferred { tv_sec := 9223372036854775807, tv_nsec := 0 } { tv_sec := -1, tv_nsec := 0 }
      = true ∧
    (timeout
        { now := { tv_sec := -1, tv_nsec := 0 }, malloc_ok := true,
          thr := { attr_init := 0, setdetachstate := 0, create := 0 },
          sleep := SleepResult.completed 0 }
        { tv_sec := 9223372036854775807, tv_nsec := 0 } (FnPtr.other 1) 7).thread.map sleeps =
      some [{ tv_sec := -9223372036854775808, tv_nsec := 0 }] ∧
    ¬ (0 ≤ (timeout_wait { tv_sec := 9223372036854775807, tv_nsec := 0 }
          { tv_sec := -1, tv_nsec := 0 }).tv_sec) := by
  decide

/-- C4, amended: with nanoseconds of `when` and `now` in [0, 1e9) and a seconds
difference `when.tv_sec - now.tv_sec` that fits the signed 64-bit `time_t` (below
2^63), whenever the deferred branch is taken the wait computed by `timeout` has
`tv_sec >= 0` and `0 <= tv_nsec < 1e9`; every record `timeout` hands to a thread
holds such a wait, and every sleep request of the started thread is such a
duration. -/
theorem timeout_wait_is_duration (e : Env) (when : timespec) (func : FnPtr) (arg : VoidPtr)
    (hw : wellFormed when) (hn : wellFormed e.now)
    (hfit : when.tv_sec - e.now.tv_sec < 2 ^ 63) :
    (deferred when e.now = true →
      0 ≤ (timeout_wait when e.now).tv_sec ∧ 0 ≤ (timeout_wait when e.now).tv_nsec ∧
        (timeout_wait when e.now).tv_nsec < 1000000000) ∧
    (∀ p ∈ launches (timeout e when func arg).caller,
      0 ≤ p.1.to_wait.tv_sec ∧ 0 ≤ p.1.to_wait.tv_nsec ∧ p.1.to_wait.tv_nsec < 1000000000) ∧
    (∀ th, (timeout e when func arg).thread = some th →
      ∀ req ∈ sleeps th, 0 ≤ req.tv_sec ∧ 0 ≤ req.tv_nsec ∧ req.tv_nsec < 1000000000) := by
  have main : deferred when e.now = true →
      0 ≤ (timeout_wait when e.now).tv_sec ∧ 0 ≤ (timeout_wait when e.now).tv_nsec ∧
        (timeout_wait when e.now).tv_nsec < 1000000000 := by
    intro hd
    have h := timeout_wait_wellFormed when e.now hw hn hd hfit
    unfold wellFormed SECTONSEC at h
    exact ⟨h.1, h.2.1, h.2.2⟩
  refine ⟨main, ?_, ?_⟩
  · intro p hp
    rw [timeout_launches] at hp
    cases hd : deferred when e.now
    · simp [hd] at hp
    · cases hm : e.malloc_ok
      · simp [hd, hm] at hp
      · simp [hd, hm] at hp
        subst hp
        exact main hd
  · intro th hth req hreq
    cases hd : deferred when e.now
    · rw [timeout_not_deferred e when func arg hd] at hth
      simp at hth
    · cases hm : e.malloc_ok
      · rw [timeout_malloc_failed e when func arg hd hm] at hth
        simp at hth
      · by_cases hz : (makethread e.thr (timeout_helper e.sleep)
            { to_fn := func, to_arg := arg, to_wait := timeout_wait when e.now }).1 = 0
        · rw [timeout_launched e when func arg hd hm hz] at hth
          simp only [Option.some.injEq] at hth
          subst hth
          simp [timeout_helper, sleeps] at hreq
          subst hreq
          exact main hd
        · rw [timeout_launch_failed e when func arg hd hm hz] at hth
          simp at hth

/-- Witness for C4: the borrow case `now = (10, 900000000)`, `when = (11, 100000000)`,
where the seconds difference 1 is decremented to 0. -/
theorem timeout_wait_is_duration_witness :
    wellFormed { tv_sec := 11, tv_nsec := 100000000 } ∧
    wellFormed { tv_sec := 10, tv_nsec := 900000000 } ∧
    (11 : Int) - 10 < 2 ^ 63 ∧
    deferred { tv_sec := 11, tv_nsec := 100000000 } { tv_sec := 10, tv_nsec := 900000000 }
      = true ∧
    0 ≤ (timeout_wait { tv_sec := 11, tv_nsec := 100000000 }
          { tv_sec := 10, tv_nsec := 900000000 }).tv_sec :=
  ⟨by decide, by decide, by decide, by decide,
   ((timeout_wait_is_duration
    { now := { tv_sec := 10, tv_nsec := 900000000 }, malloc_ok := true,
      thr := { attr_init := 0, setdetachstate := 0, create := 0 },
      sleep := SleepResult.completed 0 }
    { tv_sec := 11, tv_nsec := 100000000 } FnPtr.retry 0
    (by decide) (by decide) (by decide)).1 (by decide)).1⟩

/-- C5: for a deadline strictly in the future, when the allocation succeeds and
`makethread` returns 0, `timeout` returns right after the launch without calling
`func` on the calling thread and without releasing the record; the started
`timeout_helper` got a record holding exactly the caller's `func`, the caller's `arg`
and the computed wait, and its actions are, in this order: one sleep request for that
wait, the call `func(arg)`, the release of the record. -/
theorem timeout_future_defers (e : Env) (when : timespec) (func : FnPtr) (arg : VoidPtr)
    (hw : wellFormed when) (hn : wellFormed e.now) (hlt : ns e.now < ns when)
    (hm : e.malloc_ok = true)
    (hz : (makethread e.thr (timeout_helper e.sleep)
            { to_fn := func, to_arg := arg, to_wait := timeout_wait when e.now }).1 = 0) :
    calls (timeout e when func arg).caller = [] ∧
    frees (timeout e when func arg).caller = [] ∧
    (timeout e when func arg).caller.getLast? =
      some (Event.makethread
        { to_fn := func, to_arg := arg, to_wait := timeout_wait when e.now } 0) ∧
    (timeout e when func arg).thread =
      some (timeout_helper e.sleep
        { to_fn := func, to_arg := arg, to_wait := timeout_wait when e.now }) ∧
    (timeout e when func arg).thread =
      some [Event.clock_nanosleep (timeout_wait when e.now) e.sleep,
            Event.call func arg,
            Event.free { to_fn := func, to_arg := arg, to_wait := timeout_wait when e.now }] := by
  have hd := (deferred_iff_ns_lt when e.now hw hn).2 hlt
  rw [timeout_launched e when func arg hd hm hz]
  simp [calls, frees, timeout_helper]

/-- Witness for C5: `now = (10, 500000000)`, `when = (10, 900000000)`, every library
call succeeding. -/
theorem timeout_future_defers_witness :
    ns { tv_sec := 10, tv_nsec := 500000000 } < ns { tv_sec := 10, tv_nsec := 900000000 } ∧
    (timeout
      { now := { tv_sec := 10, tv_nsec := 500000000 }, malloc_ok := true,
        thr := { attr_init := 0, setdetachstate := 0, create := 0 },
        sleep := SleepResult.completed 0 }
      { tv_sec := 10, tv_nsec := 900000000 } (FnPtr.other 1) 7).thread =
      some [Event.clock_nanosleep
              (timeout_wait { tv_sec := 10, tv_nsec := 900000000 }
                { tv_sec := 10, tv_nsec := 500000000 }) (SleepResult.completed 0),
            Event.call (FnPtr.other 1) 7,
            Event.free { to_fn := FnPtr.other 1, to_arg := 7,
                         to_wait := timeout_wait { tv_sec := 10, tv_nsec := 900000000 }
                           { tv_sec := 10, tv_nsec := 500000000 } }] :=
  ⟨by decide,
   (timeout_future_defers
    { now := { tv_sec := 10, tv_nsec := 500000000 }, malloc_ok := true,
      thr := { attr_init := 0, setdetachstate := 0, create := 0 },
      sleep := SleepResult.completed 0 }
    { tv_sec := 10, tv_nsec := 900000000 } (FnPtr.other 1) 7
    (by decide) (by decide) (by decide) rfl (by decide)).2.2.2.2⟩

/-- C6: for a deadline strictly in the future, when the allocation returns NULL or
`makethread` returns a non-zero code, `timeout` calls `func(arg)` once on the calling
thread as its last action, no detached thread exists, and the record is released
exactly once if it was allocated and never otherwise. `timeout` has no result value,
so nothing is reported to the caller. -/
theorem timeout_launch_failure_falls_back (e : Env) (when : timespec) (func : FnPtr)
    (arg : VoidPtr) (hw : wellFormed when) (hn : wellFormed e.now) (hlt : ns e.now < ns when)
    (hfail : e.malloc_ok = false ∨
      (makethread e.thr (timeout_helper e.sleep)
        { to_fn := func, to_arg := arg, to_wait := timeout_wait when e.now }).1 ≠ 0) :
    calls (timeout e when func arg).caller = [(func, arg)] ∧
    (timeout e when func arg).caller.getLast? = some (Event.call func arg) ∧
    (timeout e when func arg).thread = none ∧
    (timeout e when func arg).allCalls = [(func, arg)] ∧
    mallocs (timeout e when func arg).caller = [e.malloc_ok] ∧
    frees (timeout e when func arg).caller =
      (if e.malloc_ok then
        [{ to_fn := func, to_arg := arg, to_wait := timeout_wait when e.now }]
      else []) := by
  have hd := (deferred_iff_ns_lt when e.now hw hn).2 hlt
  cases hm : e.malloc_ok
  · rw [timeout_malloc_failed e when func arg hd hm]
    simp [calls, frees, mallocs, Outcome.allCalls]
  · have hz : (makethread e.thr (timeout_helper e.sleep)
        { to_fn := func, to_arg := arg, to_wait := timeout_wait when e.now }).1 ≠ 0 := by
      rcases hfail with h | h
      · rw [hm] at h
        cases h
      · exact h
    rw [timeout_launch_failed e when func arg hd hm hz]
    simp [calls, frees, mallocs, Outcome.allCalls]

/-- Witness for C6: `pthread_create` fails with code 11 for `now = (10, 500000000)`,
`when = (10, 900000000)`. -/
theorem timeout_launch_failure_falls_back_witness :
    ns { tv_sec := 10, tv_nsec := 500000000 } < ns { tv_sec := 10, tv_nsec := 900000000 } ∧
    (makethread { attr_init := 0, setdetachstate := 0, create := 11 }
        (timeout_helper (SleepResult.completed 0))
        { to_fn := FnPtr.other 1, to_arg := 7,
          to_wait := timeout_wait { tv_sec := 10, tv_nsec := 900000000 }
            { tv_sec := 10, tv_nsec := 500000000 } }).1 ≠ 0 ∧
    calls (timeout
      { now := { tv_sec := 10, tv_nsec := 500000000 }, malloc_ok := true,
        thr := { attr_init := 0, setdetachstate := 0, create := 11 },
        sleep := SleepResult.completed 0 }
      { tv_sec := 10, tv_nsec := 900000000 } (FnPtr.other 1) 7).caller =
      [(FnPtr.other 1, 7)] :=
  ⟨by decide, by decide,
   (timeout_launch_failure_falls_back
    { now := { tv_sec := 10, tv_nsec := 500000000 }, malloc_ok := true,
      thr := { attr_init := 0, setdetachstate := 0, create := 11 },
      sleep := SleepResult.completed 0 }
    { tv_sec := 10, tv_nsec := 900000000 } (FnPtr.other 1) 7
    (by decide) (by decide) (by decide) (Or.inr (by decide))).1⟩

/-- C7: for every call `timeout(when, func, arg)`, whatever the clock reading, the
outcome of the allocation, the return codes of the pthread calls and the way the sleep
ends, the invocations made on the calling thread together with those made by the
started `timeout_helper` are exactly one invocation, and it is `func(arg)`. -/
theorem timeout_calls_exactly_once (e : Env) (when : timespec) (func : FnPtr)
    (arg : VoidPtr) : (timeout e when func arg).allCalls = [(func, arg)] := by
  cases hd : deferred when e.now
  · simp [timeout_not_deferred e when func arg hd, Outcome.allCalls, calls]
  · cases hm : e.malloc_ok
    · simp [timeout_malloc_failed e when func arg hd hm, Outcome.allCalls, calls]
    · by_cases hz : (makethread e.thr (timeout_helper e.sleep)
            { to_fn := func, to_arg := arg, to_wait := timeout_wait when e.now }).1 = 0
      · simp [timeout_launched e when func arg hd hm hz, Outcome.allCalls, calls,
          timeout_helper]
      · simp [timeout_launch_failed e when func arg hd hm hz, Outcome.allCalls, calls]

/-- C8, as stated, fails: with a wait of 0.4 s and a sleep cut short after 0.1 s,
`timeout_helper` makes its single sleep request and then calls the function, 0.1 s
after the start and so before the wait has elapsed. -/
theorem timeout_helper_fires_after_interrupted_sleep :
    sleeps (timeout_helper (SleepResult.interrupted 100000000)
      { to_fn := FnPtr.other 1, to_arg := 7,
        to_wait := { tv_sec := 0, tv_nsec := 400000000 } }) =
      [{ tv_sec := 0, tv_nsec := 400000000 }] ∧
    sleptBeforeCall (timeout_helper (SleepResult.interrupted 100000000)
      { to_fn := FnPtr.other 1, to_arg := 7,
        to_wait := { tv_sec := 0, tv_nsec := 400000000 } }) = 100000000 ∧
    ¬ (ns { tv_sec := 0, tv_nsec := 400000000 } ≤
      sleptBeforeCall (timeout_helper (SleepResult.interrupted 100000000)
        { to_fn := FnPtr.other 1, to_arg := 7,
          to_wait := { tv_sec := 0, tv_nsec := 400000000 } })) := by
  decide

/-- C8, amended: `timeout_helper` makes exactly one sleep request, for the whole
computed wait, and calls the function when that request returns. When the sleep runs
to completion the call happens only after the whole wait has elapsed; when the sleep is
cut short after `after` nanoseconds it is not resumed and the call happens then. -/
theorem timeout_helper_sleeps_once (sl : SleepResult) (tip : to_info) :
    sleeps (timeout_helper sl tip) = [tip.to_wait] ∧
    calls (timeout_helper sl tip) = [(tip.to_fn, tip.to_arg)] ∧
    (∀ slack, sl = SleepResult.completed slack →
      ns tip.to_wait ≤ sleptBeforeCall (timeout_helper sl tip)) ∧
    (∀ after, sl = SleepResult.interrupted after →
      sleptBeforeCall (timeout_helper sl tip) = after) := by
  refine ⟨rfl, rfl, ?_, ?_⟩
  · intro slack h
    subst h
    simp [timeout_helper, sleptBeforeCall, SleepResult.slept]
  · intro after h
    subst h
    simp [timeout_helper, sleptBeforeCall, SleepResult.slept]

theorem wrap32_of_fits (x : Int) (h1 : -(2 ^ 31) ≤ x) (h2 : x < 2 ^ 31) : wrap32 x = x := by
  unfold wrap32
  rw [Int.emod_eq_of_lt (by omega) (by omega)]
  omega

/-- C10: with nanoseconds of `when` and `now` in [0, 1e9), every value produced by the
nanosecond computation of lines 92-96 (the difference in the no-borrow branch;
`SECTONSEC - now.tv_nsec` and then `SECTONSEC - now.tv_nsec + when->tv_nsec` in the
borrow branch) lies in [0, 1e9], so within the signed 32-bit range; the last of these
values is the stored `tv_nsec`, and computing with every operation wrapped to 32 bits
gives the same `tv_nsec` as exact integer arithmetic. -/
theorem timeout_nsec_no_overflow (when now : timespec) (hw : wellFormed when)
    (hn : wellFormed now) :
    (∀ v ∈ nsec_steps when now, 0 ≤ v ∧ v ≤ 1000000000) ∧
    (∀ v ∈ nsec_steps when now, -(2 ^ 31) ≤ v ∧ v < 2 ^ 31 ∧ wrap32 v = v) ∧
    (nsec_steps when now).getLast? = some (timeout_wait when now).tv_nsec ∧
    timeout_wait_nsec32 when now = (timeout_wait when now).tv_nsec := by
  unfold wellFormed SECTONSEC at hw hn
  have range : ∀ v ∈ nsec_steps when now, 0 ≤ v ∧ v ≤ 1000000000 := by
    intro v hv
    unfold nsec_steps SECTONSEC at hv
    split at hv
    · simp only [List.mem_singleton] at hv
      omega
    · simp only [List.mem_cons, List.mem_singleton, List.not_mem_nil, or_false] at hv
      rcases hv with h | h <;> omega
  refine ⟨range, ?_, ?_, ?_⟩
  · intro v hv
    have h := range v hv
    have h1 : -(2 ^ 31) ≤ v := by omega
    have h2 : v < 2 ^ 31 := by omega
    exact ⟨h1, h2, wrap32_of_fits v h1 h2⟩
  · unfold nsec_steps timeout_wait
    split <;> simp
  · unfold timeout_wait_nsec32 timeout_wait SECTONSEC
    split
    · exact wrap32_of_fits _ (by omega) (by omega)
    · rw [wrap32_of_fits (1000000000 - now.tv_nsec) (by omega) (by omega)]
      exact wrap32_of_fits _ (by omega) (by omega)

/-- Witness for C10: the borrow case `now.tv_nsec = 900000000`,
`when.tv_nsec = 100000000`. -/
theorem timeout_nsec_no_overflow_witness :
    wellFormed { tv_sec := 11, tv_nsec := 100000000 } ∧
    wellFormed { tv_sec := 10, tv_nsec := 900000000 } ∧
    timeout_wait_nsec32 { tv_sec := 11, tv_nsec := 100000000 }
        { tv_sec := 10, tv_nsec := 900000000 } =
      (timeout_wait { tv_sec := 11, tv_nsec := 100000000 }
        { tv_sec := 10, tv_nsec := 900000000 }).tv_nsec :=
  ⟨by decide, by decide,
   (timeout_nsec_no_overflow { tv_sec := 11, tv_nsec := 100000000 }
     { tv_sec := 10, tv_nsec := 900000000 } (by decide) (by decide)).2.2.2⟩

theorem timeout_caller_cases (e : Env) (when : timespec) (func : FnPtr) (arg : VoidPtr) :
    (timeout e when func arg).caller = [Event.clock_gettime e.now, Event.call func arg] ∨
    (timeout e when func arg).caller =
      [Event.clock_gettime e.now, Event.malloc false, Event.call func arg] ∨
    (timeout e when func arg).caller =
      [Event.clock_gettime e.now, Event.malloc true,
       Event.makethread { to_fn := func, to_arg := arg, to_wait := timeout_wait when e.now } 0] ∨
    ∃ err, (timeout e when func arg).caller =
      [Event.clock_gettime e.now, Event.malloc true,
       Event.makethread { to_fn := func, to_arg := arg, to_wait := timeout_wait when e.now } err,
       Event.free { to_fn := func, to_arg := arg, to_wait := timeout_wait when e.now },
       Event.call func arg] := by
  cases hd : deferred when e.now
  · exact Or.inl (by rw [timeout_not_deferred e when func arg hd])
  · cases hm : e.malloc_ok
    · exact Or.inr (Or.inl (by rw [timeout_malloc_failed e when func arg hd hm]))
    · by_cases hz : (makethread e.thr (timeout_helper e.sleep)
            { to_fn := func, to_arg := arg, to_wait := timeout_wait when e.now }).1 = 0
      · exact Or.inr (Or.inr (Or.inl (by rw [timeout_launched e when func arg hd hm hz])))
      · exact Or.inr (Or.inr (Or.inr ⟨_, by rw [timeout_launch_failed e when func arg hd hm hz]⟩))

/-- C9: when the three setup calls succeed, the main thread takes the mutex, runs the
guarded block (the condition check and, if it holds, the call of `timeout`) and
releases the mutex. The guarded block starts and ends with one hold, none of its
lock calls has to wait, and every one of its events, those of `timeout` included,
happens with at least one hold. Over the whole of `main` the holds go back to zero,
the mutex ends free, and there are as many lock calls as unlock calls. When `timeout`
calls `retry` on the main thread, the guarded block ends with that call at one hold,
the lock of `retry` at two holds and its unlock at one hold. -/
theorem main_guarded_reentrant (e : MainEnv) (h1 : e.mutexattr_init = 0)
    (h2 : e.mutexattr_settype = 0) (h3 : e.mutex_init = 0) :
    ∃ g : List (Event × Nat),
      holdCounts mainTid { owner := some mainTid, count := 1 } (mainGuarded e) =
        some (g, { owner := some mainTid, count := 1 }) ∧
      (∀ p ∈ g, 1 ≤ p.2) ∧
      holdCounts mainTid Mutex.init (main e) =
        some ((Event.mutex_lock, 1) :: (g ++ [(Event.mutex_unlock, 0), (Event.exit 0, 0)]),
              Mutex.init) ∧
      lockCount (main e) = unlockCount (main e) ∧
      (e.condition ≠ 0 →
        calls (timeout e.tenv (mainWhen e) FnPtr.retry (argPtr e.arg)).caller ≠ [] →
        [(Event.call FnPtr.retry (argPtr e.arg), 1), (Event.mutex_lock, 2),
          (Event.mutex_unlock, 1)] <:+ g) := by
  by_cases hc : e.condition = 0
  · refine ⟨[], ?_, ?_, ?_, ?_, ?_⟩
    · simp [mainGuarded, hc, holdCounts]
    · simp
    · simp [main, mainGuarded, h1, h2, h3, hc, holdCounts, stepMutex, pthread_mutex_lock,
        pthread_mutex_unlock, Mutex.init, Mutex.heldBy, mainTid]
    · simp [main, mainGuarded, h1, h2, h3, hc, lockCount, unlockCount]
    · intro h
      exact absurd hc h
  · rcases timeout_caller_cases e.tenv (mainWhen e) FnPtr.retry (argPtr e.arg)
      with h | h | h | ⟨err, h⟩
    · refine ⟨[(Event.clock_gettime e.clock, 1), (Event.clock_gettime e.tenv.now, 1),
        (Event.call FnPtr.retry (argPtr e.arg), 1), (Event.mutex_lock, 2),
        (Event.mutex_unlock, 1)], ?_, ?_, ?_, ?_, ?_⟩
      · simp [mainGuarded, hc, h, runCalls, body, retry, holdCounts, stepMutex,
          pthread_mutex_lock, pthread_mutex_unlock, Mutex.heldBy, mainTid]
      · simp
      · simp [main, mainGuarded, h1, h2, h3, hc, h, runCalls, body, retry, holdCounts,
          stepMutex, pthread_mutex_lock, pthread_mutex_unlock, Mutex.init, Mutex.heldBy,
          mainTid]
      · simp [main, mainGuarded, h1, h2, h3, hc, h, runCalls, body, retry, lockCount,
          unlockCount]
      · intro _ _
        exact ⟨[(Event.clock_gettime e.clock, 1), (Event.clock_gettime e.tenv.now, 1)], rfl⟩
    · refine ⟨[(Event.clock_gettime e.clock, 1), (Event.clock_gettime e.tenv.now, 1),
        (Event.malloc false, 1),
        (Event.call FnPtr.retry (argPtr e.arg), 1), (Event.mutex_lock, 2),
        (Event.mutex_unlock, 1)], ?_, ?_, ?_, ?_, ?_⟩
      · simp [mainGuarded, hc, h, runCalls, body, retry, holdCounts, stepMutex,
          pthread_mutex_lock, pthread_mutex_unlock, Mutex.heldBy, mainTid]
      · simp
      · simp [main, mainGuarded, h1, h2, h3, hc, h, runCalls, body, retry, holdCounts,
          stepMutex, pthread_mutex_lock, pthread_mutex_unlock, Mutex.init, Mutex.heldBy,
          mainTid]
      · simp [main, mainGuarded, h1, h2, h3, hc, h, runCalls, body, retry, lockCount,
          unlockCount]
      · intro _ _
        exact ⟨[(Event.clock_gettime e.clock, 1), (Event.clock_gettime e.tenv.now, 1),
          (Event.malloc false, 1)], rfl⟩
    · refine ⟨[(Event.clock_gettime e.clock, 1), (Event.clock_gettime e.tenv.now, 1),
        (Event.malloc true, 1),
        (Event.makethread (to_info.mk FnPtr.retry (argPtr e.arg)
            (timeout_wait (mainWhen e) e.tenv.now)) 0, 1)], ?_, ?_, ?_, ?_, ?_⟩
      · simp [mainGuarded, hc, h, runCalls, holdCounts, stepMutex, Mutex.heldBy, mainTid]
      · simp
      · simp [main, mainGuarded, h1, h2, h3, hc, h, runCalls, holdCounts,
          stepMutex, pthread_mutex_lock, pthread_mutex_unlock, Mutex.init, Mutex.heldBy,
          mainTid]
      · simp [main, mainGuarded, h1, h2, h3, hc, h, runCalls, lockCount, unlockCount]
      · intro _ hcalls
        simp [h, calls] at hcalls
    · refine ⟨[(Event.clock_gettime e.clock, 1), (Event.clock_gettime e.tenv.now, 1),
        (Event.malloc true, 1),
        (Event.makethread (to_info.mk FnPtr.retry (argPtr e.arg)
            (timeout_wait (mainWhen e) e.tenv.now)) err, 1),
        (Event.free (to_info.mk FnPtr.retry (argPtr e.arg)
            (timeout_wait (mainWhen e) e.tenv.now)), 1),
        (Event.call FnPtr.retry (argPtr e.arg), 1), (Event.mutex_lock, 2),
        (Event.mutex_unlock, 1)], ?_, ?_, ?_, ?_, ?_⟩
      · simp [mainGuarded, hc, h, runCalls, body, retry, holdCounts, stepMutex,
          pthread_mutex_lock, pthread_mutex_unlock, Mutex.heldBy, mainTid]
      · simp
      · simp [main, mainGuarded, h1, h2, h3, hc, h, runCalls, body, retry, holdCounts,
          stepMutex, pthread_mutex_lock, pthread_mutex_unlock, Mutex.init, Mutex.heldBy,
          mainTid]
      · simp [main, mainGuarded, h1, h2, h3, hc, h, runCalls, body, retry, lockCount,
          unlockCount]
      · intro _ _
        exact ⟨[(Event.clock_gettime e.clock, 1), (Event.clock_gettime e.tenv.now, 1),
          (Event.malloc true, 1),
          (Event.makethread (to_info.mk FnPtr.retry (argPtr e.arg)
            (timeout_wait (mainWhen e) e.tenv.now)) err, 1),
          (Event.free (to_info.mk FnPtr.retry (argPtr e.arg)
            (timeout_wait (mainWhen e) e.tenv.now)), 1)], rfl⟩

/-- Witness for C9: the run `dueMainEnv`, where `retry` is called on the main thread.
The holds after each event are 1, 1, 1, 1, 2, 1, 0, 0. -/
theorem main_guarded_reentrant_witness :
    dueMainEnv.mutexattr_init = 0 ∧ dueMainEnv.mutexattr_settype = 0 ∧
    dueMainEnv.mutex_init = 0 ∧
    holdCounts mainTid Mutex.init (main dueMainEnv) =
      some ([(Event.mutex_lock, 1),
             (Event.clock_gettime { tv_sec := 100, tv_nsec := 0 }, 1),
             (Event.clock_gettime { tv_sec := 110, tv_nsec := 0 }, 1),
             (Event.call FnPtr.retry 5, 1),
             (Event.mutex_lock, 2),
             (Event.mutex_unlock, 1),
             (Event.mutex_unlock, 0),
             (Event.exit 0, 0)], Mutex.init) ∧
    ∃ g : List (Event × Nat),
      holdCounts mainTid { owner := some mainTid, count := 1 } (mainGuarded dueMainEnv) =
        some (g, { owner := some mainTid, count := 1 }) ∧
      [(Event.call FnPtr.retry (argPtr dueMainEnv.arg), 1), (Event.mutex_lock, 2),
        (Event.mutex_unlock, 1)] <:+ g :=
  ⟨rfl, rfl, rfl, by decide,
   match main_guarded_reentrant dueMainEnv rfl rfl rfl with
   | ⟨g, hg, _, _, _, hs⟩ => ⟨g, hg, hs (by decide) (by decide)⟩⟩

end MutexScheduledFunc
